import Mathlib

/-!
Verification of the change-detection and notification-commit engine of the
signed-merch-search repository (src/sites/base.py, src/sites/taylor_swift.py),
as a shallow embedding in Lean.

Modelling conventions:
  * A product dict is a `Product` record; the per-site flags `is_signed` /
    `is_available` are booleans (on the one site that sets them they are
    always present, and `dict.get` with a missing key is falsy).
  * The persisted seen file is a `FileState`: missing, present-but-unparsable,
    or a parsed JSON list of key strings (loaded as a Python `set`, modelled
    as `Finset String`).  The signed-seen file holds a JSON object
    `{url: last_alerted_timestamp}`, modelled as an association list.
  * Unix time (`time.time()` and stored timestamps) is modelled as integer
    seconds (`Int`); the code only ever compares `now - last_alerted` with an
    integer cooldown constant.
  * The outcome of an SMTP send (`send_email`) is an external event, passed to
    `run` as a boolean per potential send.
  * `run`'s observable effects are the resulting file states, which emails were
    attempted and with which products, and whether the lock file was written.
-/

/-- One product dict as produced by an adapter fetch
(base.py `parse_products` contract plus the two extra flags added by
taylor_swift.py `fetch_products`). -/
structure Product where
  title : String
  price : String
  url : String
  image_url : String
  is_signed : Bool
  is_available : Bool
deriving DecidableEq, Repr

/-- `product['url'].split('?')[0]` — the canonical key used for dedup:
the URL with the query string stripped (base.py line 245, taylor_swift.py
line 169).  The first element of Python `split('?')` is the prefix of the
string before its first `'?'` (the whole string when no `'?'` occurs). -/
def cleanUrl (url : String) : String :=
  String.mk (url.toList.takeWhile fun c => c ≠ '?')

/-- State of a persisted seen-set file: missing, present but unparsable JSON,
or a parsed list of keys (loaded into a Python set). -/
inductive FileState where
  | missing
  | corrupt
  | valid (keys : Finset String)
deriving DecidableEq

/-- `ProductChecker.load_seen_products` (base.py lines 141-149): returns the
parsed set if the file exists and parses, and the empty set when the file is
missing or any exception occurs while reading/parsing. -/
def load_seen_products : FileState → Finset String
  | .missing => ∅
  | .corrupt => ∅
  | .valid keys => keys

/-- The classification loop of `ProductChecker.run` (base.py lines 240-249):
one pass over the fetched products, accumulating `new_products` (appended in
fetch order when the cleaned URL is not in the seen set) and
`all_current_urls` (the set of cleaned URLs).  `seen` is not mutated by the
loop. -/
def classifyLoop (seen : Finset String) :
    List Product → List Product × Finset String → List Product × Finset String
  | [], acc => acc
  | p :: ps, (new_products, all_current_urls) =>
    let clean_url := cleanUrl p.url
    classifyLoop seen ps
      ((if clean_url ∈ seen then new_products else new_products ++ [p]),
       insert clean_url all_current_urls)

/-- Observable outcome of one `ProductChecker.run` cycle. -/
structure RunResult where
  /-- state of the seen-products file after the cycle -/
  store : FileState
  /-- products passed to `send_email`, when a send was attempted -/
  emailedNew : Option (List Product)
  /-- whether the sent-lock file was written -/
  lockWritten : Bool
deriving DecidableEq

/-- `ProductChecker.run` (base.py lines 225-268).  Inputs: the current state
of the seen file, the list returned by `fetch_products`, and whether
`send_email` would succeed if called this cycle. -/
def ProductChecker.run (file : FileState) (products : List Product)
    (emailOk : Bool) : RunResult :=
  let seen_products := load_seen_products file
  if products.isEmpty then
    -- "No products found or fetch failed": return with no state change
    { store := file, emailedNew := none, lockWritten := false }
  else
    let c := classifyLoop seen_products products ([], ∅)
    let new_products := c.1
    let all_current_urls := c.2
    if new_products.isEmpty then
      -- "Still save in case we need to update the file"
      { store := .valid seen_products, emailedNew := none, lockWritten := false }
    else if emailOk then
      -- seen set updated only after successful email, then lock file written
      { store := .valid (seen_products ∪ all_current_urls),
        emailedNew := some new_products, lockWritten := true }
    else
      { store := file, emailedNew := some new_products, lockWritten := false }

-- ### Taylor Swift checker (taylor_swift.py)

/-- The cooldown constant: `SIGNED_COOLDOWN_SECONDS = 2 * 60 * 60`
(taylor_swift.py line 20). -/
def SIGNED_COOLDOWN_SECONDS : Int := 2 * 60 * 60

/-- State of the persisted signed-seen file, whose valid content is a JSON
object `{url: last_alerted_timestamp}` (modelled as an association list with
distinct keys, the dict's entries). -/
inductive SignedFileState where
  | missing
  | corrupt
  | valid (entries : List (String × Int))
deriving DecidableEq

/-- `TaylorSwiftChecker._load_signed_seen` (taylor_swift.py lines 52-60):
the parsed dict if the file exists and parses, `{}` when the file is missing
or any exception occurs. -/
def TaylorSwiftChecker.load_signed_seen : SignedFileState → List (String × Int)
  | .missing => []
  | .corrupt => []
  | .valid entries => entries

/-- Python `signed_seen.get(clean_url, 0)` on the dict. -/
def dictGet (d : List (String × Int)) (k : String) : Int :=
  match d.lookup k with
  | some v => v
  | none => 0

/-- Python `signed_seen[key] = value` on the dict: replace the existing
entry for `key`, or append a fresh one. -/
def dictSet (d : List (String × Int)) (k : String) (v : Int) :
    List (String × Int) :=
  match d with
  | [] => [(k, v)]
  | (k', v') :: rest => if k' = k then (k, v) :: rest else (k', v') :: dictSet rest k v

/-- The categorisation loop of `TaylorSwiftChecker.run` (taylor_swift.py
lines 164-180): one pass over the fetched products accumulating
`new_products` (cleaned URL not in the seen set), `signed_in_stock`
(`is_signed` and `is_available` truthy and `now - last_alerted` at least the
cooldown, `last_alerted` defaulting to 0), and `all_current_urls`.  Neither
`seen` nor `signed_seen` is mutated by the loop. -/
def tsClassifyLoop (seen : Finset String) (signed_seen : List (String × Int))
    (now : Int) :
    List Product → List Product × List Product × Finset String →
      List Product × List Product × Finset String
  | [], acc => acc
  | p :: ps, (new_products, signed_in_stock, all_current_urls) =>
    let clean_url := cleanUrl p.url
    tsClassifyLoop seen signed_seen now ps
      ((if clean_url ∈ seen then new_products else new_products ++ [p]),
       (if p.is_signed && p.is_available &&
            decide (now - dictGet signed_seen clean_url ≥ SIGNED_COOLDOWN_SECONDS)
        then signed_in_stock ++ [p] else signed_in_stock),
       insert clean_url all_current_urls)

/-- Observable outcome of one `TaylorSwiftChecker.run` cycle. -/
structure TSRunResult where
  /-- state of the seen-products file after the cycle -/
  seenStore : FileState
  /-- state of the signed-seen file after the cycle -/
  signedStore : SignedFileState
  /-- products passed to `send_email` for the signed alert, when attempted -/
  signedEmail : Option (List Product)
  /-- products passed to `send_email` for the new-items alert, when attempted -/
  newEmail : Option (List Product)
deriving DecidableEq

/-- `TaylorSwiftChecker.run` (taylor_swift.py lines 144-211).  Inputs: the two
persisted file states, the fetch result, `now = time.time()`, and whether each
of the two potential `send_email` calls would succeed. -/
def TaylorSwiftChecker.run (seenFile : FileState) (signedFile : SignedFileState)
    (products : List Product) (now : Int)
    (signedEmailOk newEmailOk : Bool) : TSRunResult :=
  let seen_products := load_seen_products seenFile
  let signed_seen := TaylorSwiftChecker.load_signed_seen signedFile
  if products.isEmpty then
    -- "No products found or fetch failed": return with no state change
    { seenStore := seenFile, signedStore := signedFile,
      signedEmail := none, newEmail := none }
  else
    let c := tsClassifyLoop seen_products signed_seen now products ([], [], ∅)
    let new_products := c.1
    let signed_in_stock := c.2.1
    let all_current_urls := c.2.2
    -- signed item alert: signed_seen timestamps persisted only on send success
    let signedOutcome :=
      if signed_in_stock.isEmpty then
        (signedFile, (none : Option (List Product)))
      else if signedEmailOk then
        (SignedFileState.valid
           (signed_in_stock.foldl (fun d p => dictSet d (cleanUrl p.url) now)
             signed_seen),
         some signed_in_stock)
      else (signedFile, some signed_in_stock)
    if new_products.isEmpty then
      { seenStore := .valid seen_products, signedStore := signedOutcome.1,
        signedEmail := signedOutcome.2, newEmail := none }
    else
      -- new item alert: signed items filtered out whether or not the signed
      -- alert succeeded; the seen file is written whenever new_products is
      -- non-empty, regardless of either send's outcome
      let signed_urls := (signed_in_stock.map fun p => cleanUrl p.url).toFinset
      let new_non_signed :=
        new_products.filter fun p => decide (cleanUrl p.url ∉ signed_urls)
      { seenStore := .valid (seen_products ∪ all_current_urls),
        signedStore := signedOutcome.1, signedEmail := signedOutcome.2,
        newEmail := if new_non_signed.isEmpty then none else some new_non_signed }

/-- The Boolean condition under which a product joins `signed_in_stock`. -/
def signedDue (signed_seen : List (String × Int)) (now : Int) (p : Product) : Bool :=
  p.is_signed && p.is_available &&
    decide (now - dictGet signed_seen (cleanUrl p.url) ≥ SIGNED_COOLDOWN_SECONDS)

/-- The `new_products` partition computed by `TaylorSwiftChecker.run` from the
given file states, fetch output and clock. -/
def tsNewPartition (seenFile : FileState) (signedFile : SignedFileState)
    (products : List Product) (now : Int) : List Product :=
  (tsClassifyLoop (load_seen_products seenFile)
    (TaylorSwiftChecker.load_signed_seen signedFile) now products ([], [], ∅)).1

/-- The `signed_in_stock` partition computed by `TaylorSwiftChecker.run` from
the given file states, fetch output and clock. -/
def tsSignedPartition (seenFile : FileState) (signedFile : SignedFileState)
    (products : List Product) (now : Int) : List Product :=
  (tsClassifyLoop (load_seen_products seenFile)
    (TaylorSwiftChecker.load_signed_seen signedFile) now products ([], [], ∅)).2.1

-- ### Fetch (base.py fetch_products) and email body

/-- Outcome of the single HTTP request made by `ProductChecker.fetch_products`:
`requests.get` either raises (network error / timeout), or yields a response
with a status code whose body parse (`BeautifulSoup` + `parse_products`)
either raises (`none`) or produces a product list. -/
inductive HttpResult where
  | error
  | response (status : Nat) (parse : Option (List Product))
deriving DecidableEq

/-- `ProductChecker.fetch_products` (base.py lines 156-185): `products` is
initialised to `[]`; a non-200 status returns it unchanged; any exception
(from the request or from parsing) is caught, leaving it unchanged; otherwise
the parse result is returned. -/
def fetch_products : HttpResult → List Product
  | .error => []
  | .response status parse =>
    if status ≠ 200 then []
    else
      match parse with
      | none => []
      | some items => items

/-- Whether the fetch encountered a transport, HTTP-status, or parse
failure (the conditions logged as errors in base.py lines 175-183). -/
def fetchFailed : HttpResult → Bool
  | .error => true
  | .response status parse => decide (status ≠ 200) || parse.isNone

/-- The `lines` list of `ProductChecker.build_email_body` (base.py lines
205-223): a three-line header, then for each product (enumerated from 1) a
four-line block — title, price, link, blank — then a three-line footer. -/
def email_body_lines (intro search_url : String)
    (new_products : List Product) : List String :=
  [intro, String.mk (List.replicate 50 '='), ""] ++
  ((new_products.enumFrom 1).map fun ip =>
      [toString ip.1 ++ ". " ++ ip.2.title,
       "   Price: " ++ ip.2.price,
       "   Link: " ++ ip.2.url,
       ""]).flatten ++
  [String.mk (List.replicate 50 '='),
   "\nSearch page: " ++ search_url,
   "\n(You will only be notified about NEW items)"]

/-- `ProductChecker.build_email_body`: the `lines` list joined with
newlines. -/
def build_email_body (intro search_url : String)
    (new_products : List Product) : String :=
  String.intercalate "\n" (email_body_lines intro search_url new_products)

-- ### Multi-cycle iteration of the plain checker

/-- Iterate `ProductChecker.run` over a list of cycles, each given by its
fetch output and whether its send (if any) would succeed; threads the
seen-file state. -/
def runCycles : FileState → List (List Product × Bool) → FileState
  | file, [] => file
  | file, (products, emailOk) :: rest =>
    runCycles (ProductChecker.run file products emailOk).store rest

-- ### Sample products for concrete evaluations

/-- A plain (unsigned) product. -/
def sampleTee : Product :=
  { title := "Eras Tee", price := "$45.00",
    url := "https://store.taylorswift.com/products/eras-tee",
    image_url := "", is_signed := false, is_available := true }

/-- A signed, in-stock product. -/
def sampleSigned : Product :=
  { title := "Signed Litho", price := "$40.00",
    url := "https://store.taylorswift.com/products/signed-litho",
    image_url := "", is_signed := true, is_available := true }

/-- A product whose raw URL carries a query string. -/
def sampleDup : Product :=
  { title := "Poster", price := "$20.00", url := "https://s/a?utm=1",
    image_url := "", is_signed := false, is_available := false }

-- ### Helper lemmas about the classification loops

theorem classifyLoop_fst (seen : Finset String) (ps : List Product)
    (new_products : List Product) (all_current_urls : Finset String) :
    (classifyLoop seen ps (new_products, all_current_urls)).1
      = new_products ++ ps.filter (fun p => decide (cleanUrl p.url ∉ seen)) := by
  induction ps generalizing new_products all_current_urls with
  | nil => simp [classifyLoop]
  | cons p ps ih =>
    simp only [classifyLoop, List.filter]
    by_cases h : cleanUrl p.url ∈ seen
    · simp [h, ih]
    · simp [h, ih]

theorem classifyLoop_snd (seen : Finset String) (ps : List Product)
    (new_products : List Product) (all_current_urls : Finset String) :
    (classifyLoop seen ps (new_products, all_current_urls)).2
      = all_current_urls ∪ (ps.map fun p => cleanUrl p.url).toFinset := by
  induction ps generalizing new_products all_current_urls with
  | nil => simp [classifyLoop]
  | cons p ps ih =>
    simp only [classifyLoop, List.map, List.toFinset_cons]
    rw [ih]
    ext k
    simp only [Finset.mem_union, Finset.mem_insert]
    tauto

theorem tsClassifyLoop_new (seen : Finset String)
    (signed_seen : List (String × Int)) (now : Int) (ps : List Product)
    (np sis : List Product) (urls : Finset String) :
    (tsClassifyLoop seen signed_seen now ps (np, sis, urls)).1
      = np ++ ps.filter (fun p => decide (cleanUrl p.url ∉ seen)) := by
  induction ps generalizing np sis urls with
  | nil => simp [tsClassifyLoop]
  | cons p ps ih =>
    simp only [tsClassifyLoop, List.filter]
    by_cases h : cleanUrl p.url ∈ seen
    · simp [h, ih]
    · simp [h, ih]

theorem tsClassifyLoop_signed (seen : Finset String)
    (signed_seen : List (String × Int)) (now : Int) (ps : List Product)
    (np sis : List Product) (urls : Finset String) :
    (tsClassifyLoop seen signed_seen now ps (np, sis, urls)).2.1
      = sis ++ ps.filter (signedDue signed_seen now) := by
  induction ps generalizing np sis urls with
  | nil => simp [tsClassifyLoop]
  | cons p ps ih =>
    simp only [tsClassifyLoop, List.filter, signedDue]
    by_cases h : p.is_signed && p.is_available &&
        decide (now - dictGet signed_seen (cleanUrl p.url) ≥ SIGNED_COOLDOWN_SECONDS)
    · simp [h, ih, signedDue]
    · simp [h, ih, signedDue]

theorem tsClassifyLoop_urls (seen : Finset String)
    (signed_seen : List (String × Int)) (now : Int) (ps : List Product)
    (np sis : List Product) (urls : Finset String) :
    (tsClassifyLoop seen signed_seen now ps (np, sis, urls)).2.2
      = urls ∪ (ps.map fun p => cleanUrl p.url).toFinset := by
  induction ps generalizing np sis urls with
  | nil => simp [tsClassifyLoop]
  | cons p ps ih =>
    simp only [tsClassifyLoop, List.map, List.toFinset_cons]
    rw [ih]
    ext k
    simp only [Finset.mem_union, Finset.mem_insert]
    tauto

/-- Each element of `new_products` contributes its own four-line block to the
email body, so the body has `6 + 4 * new_products.length` lines. -/
theorem email_body_lines_length (intro search_url : String)
    (new_products : List Product) :
    (email_body_lines intro search_url new_products).length
      = 6 + 4 * new_products.length := by
  simp only [email_body_lines, List.length_append, List.length_flatten,
    List.map_map]
  have h : ∀ (n : Nat) (l : List Product),
      ((l.enumFrom n).map (List.length ∘ fun ip =>
        [toString ip.1 ++ ". " ++ ip.2.title,
         "   Price: " ++ ip.2.price,
         "   Link: " ++ ip.2.url,
         ""])).sum = 4 * l.length := by
    intro n l
    induction l generalizing n with
    | nil => simp
    | cons p ps ih => simp [List.enumFrom, ih, Nat.mul_succ, Nat.add_comm]
  rw [h]
  simp [Nat.add_comm, Nat.add_left_comm]
  omega

/-- `ProductChecker.run` with its `let` bindings expanded, for rewriting. -/
theorem run_eq_def (file : FileState) (products : List Product)
    (emailOk : Bool) :
    ProductChecker.run file products emailOk
      = if products.isEmpty then ⟨file, none, false⟩
        else if (classifyLoop (load_seen_products file) products ([], ∅)).1.isEmpty then
          ⟨.valid (load_seen_products file), none, false⟩
        else if emailOk then
          ⟨.valid (load_seen_products file
              ∪ (classifyLoop (load_seen_products file) products ([], ∅)).2),
           some (classifyLoop (load_seen_products file) products ([], ∅)).1, true⟩
        else ⟨file, some (classifyLoop (load_seen_products file) products ([], ∅)).1,
              false⟩ := rfl

/-- One cycle never removes keys from the loaded seen set: every branch of
`run` either leaves the file alone or writes a superset. -/
theorem run_store_monotone (file : FileState) (products : List Product)
    (emailOk : Bool) :
    load_seen_products file
      ⊆ load_seen_products (ProductChecker.run file products emailOk).store := by
  rw [run_eq_def]
  generalize hS : load_seen_products file = S
  split
  · show S ⊆ load_seen_products file
    rw [hS]
  · split
    · show S ⊆ S
      exact subset_rfl
    · split
      · show S ⊆ S ∪ _
        exact Finset.subset_union_left
      · show S ⊆ load_seen_products file
        rw [hS]

/-- Monotonicity across any sequence of cycles. -/
theorem runCycles_monotone (cycles : List (List Product × Bool))
    (file : FileState) :
    load_seen_products file ⊆ load_seen_products (runCycles file cycles) := by
  induction cycles generalizing file with
  | nil => exact subset_rfl
  | cons c rest ih =>
    obtain ⟨products, emailOk⟩ := c
    exact (run_store_monotone file products emailOk).trans
      (ih (ProductChecker.run file products emailOk).store)

/-- The new-items email of a Taylor Swift cycle: attempted exactly when the
`new_products` partition, minus the keys of `signed_in_stock`, is non-empty,
and independent of either send's success. -/
theorem ts_run_newEmail (seenFile : FileState) (signedFile : SignedFileState)
    (products : List Product) (now : Int) (signedEmailOk newEmailOk : Bool) :
    (TaylorSwiftChecker.run seenFile signedFile products now
        signedEmailOk newEmailOk).newEmail
      = if products.isEmpty then none
        else if (tsNewPartition seenFile signedFile products now).isEmpty then none
        else
          if ((tsNewPartition seenFile signedFile products now).filter fun p =>
              decide (cleanUrl p.url ∉
                ((tsSignedPartition seenFile signedFile products now).map
                  fun q => cleanUrl q.url).toFinset)).isEmpty then none
          else some ((tsNewPartition seenFile signedFile products now).filter fun p =>
              decide (cleanUrl p.url ∉
                ((tsSignedPartition seenFile signedFile products now).map
                  fun q => cleanUrl q.url).toFinset)) := by
  unfold TaylorSwiftChecker.run tsNewPartition tsSignedPartition
  by_cases hp : products.isEmpty
  · simp [hp]
  · by_cases hn : (tsClassifyLoop (load_seen_products seenFile)
        (TaylorSwiftChecker.load_signed_seen signedFile) now products
        ([], [], ∅)).1.isEmpty
    · simp [hp, hn]
    · simp [hp, hn]

-- ### Claims

/-- Claim C3: for every fetched sequence and seen set, the change detection of
`ProductChecker.run` classifies a listing as new iff its canonical key (its
URL with the query string stripped) is absent from the seen set, the new
partition preserves the input fetch order (it is a sublist of the input), and
`all_current_urls` is exactly the set of canonical keys of all input listings
with duplicates collapsed. -/
theorem C3_change_detection (products : List Product) (seen : Finset String) :
    (∀ p, p ∈ (classifyLoop seen products ([], ∅)).1 ↔
        p ∈ products ∧ cleanUrl p.url ∉ seen) ∧
    List.Sublist (classifyLoop seen products ([], ∅)).1 products ∧
    (classifyLoop seen products ([], ∅)).2
      = (products.map fun p => cleanUrl p.url).toFinset := by
  refine ⟨?_, ?_, ?_⟩
  · intro p
    rw [classifyLoop_fst]
    simp [List.mem_filter]
  · rw [classifyLoop_fst]
    simp [List.filter_sublist products]
  · rw [classifyLoop_snd]
    simp

/-- Claim C9: the seen-set loader and the signed-seen loader both fall back to
empty state when the persisted file is missing or its contents fail to parse;
neither propagates an error. -/
theorem C9_missing_or_corrupt_store_empty :
    load_seen_products .missing = ∅ ∧ load_seen_products .corrupt = ∅ ∧
    TaylorSwiftChecker.load_signed_seen .missing = [] ∧
    TaylorSwiftChecker.load_signed_seen .corrupt = [] :=
  ⟨rfl, rfl, rfl, rfl⟩

/-- Claim C8: whenever `fetch_products` produces an empty list (from a
transport failure or an empty catalog alike), `ProductChecker.run` stops
before any state change: the seen file is untouched, no email is attempted,
and no lock file is written. -/
theorem C8_empty_fetch_no_mutation (file : FileState) (emailOk : Bool)
    (r : HttpResult) (h : fetch_products r = []) :
    ProductChecker.run file (fetch_products r) emailOk
      = { store := file, emailedNew := none, lockWritten := false } := by
  rw [h, run_eq_def]
  simp

/-- Witness for C8 at a transport failure with a non-empty prior store. -/
theorem C8_empty_fetch_no_mutation_witness :
    fetch_products HttpResult.error = [] ∧
    ProductChecker.run (.valid {"https://s/a"}) (fetch_products HttpResult.error) true
      = { store := .valid {"https://s/a"}, emailedNew := none,
          lockWritten := false } :=
  ⟨rfl, C8_empty_fetch_no_mutation (.valid {"https://s/a"}) true HttpResult.error rfl⟩

/-- Claim C7 counterexample: `fetch_products` maps a transport error, a non-200
status (even one whose body parsed to listings), and a parse error to the very
value it returns for a successful fetch with zero listings, so the caller
cannot tell them apart. -/
theorem C7_counterexample :
    fetchFailed HttpResult.error = true ∧
    fetchFailed (HttpResult.response 500 (some [sampleTee])) = true ∧
    fetchFailed (HttpResult.response 200 none) = true ∧
    fetchFailed (HttpResult.response 200 (some [])) = false ∧
    fetch_products HttpResult.error
      = fetch_products (HttpResult.response 200 (some [])) ∧
    fetch_products (HttpResult.response 500 (some [sampleTee]))
      = fetch_products (HttpResult.response 200 (some [])) ∧
    fetch_products (HttpResult.response 200 none)
      = fetch_products (HttpResult.response 200 (some [])) := by
  refine ⟨rfl, ?_, rfl, rfl, rfl, ?_, rfl⟩ <;> decide

/-- Claim C7 amended: every failing fetch (transport, HTTP-status, or parse
failure) returns the same empty list a successful zero-listing fetch returns;
the two outcomes are not distinguishable from the return value. -/
theorem C7_fetch_failure_indistinguishable (r : HttpResult)
    (h : fetchFailed r = true) :
    fetch_products r = [] ∧
    fetch_products r = fetch_products (HttpResult.response 200 (some [])) := by
  cases r with
  | error => exact ⟨rfl, rfl⟩
  | response status parse =>
    cases parse with
    | none =>
      constructor <;> simp [fetch_products]
    | some items =>
      have hs : status ≠ 200 := by simpa [fetchFailed] using h
      constructor <;> simp [fetch_products, hs]

/-- Witness for the amended C7 at a transport error. -/
theorem C7_fetch_failure_indistinguishable_witness :
    fetchFailed HttpResult.error = true ∧
    (fetch_products HttpResult.error = [] ∧
     fetch_products HttpResult.error
       = fetch_products (HttpResult.response 200 (some []))) :=
  ⟨rfl, C7_fetch_failure_indistinguishable HttpResult.error rfl⟩

/-- Claim C2: in a `ProductChecker.run` cycle with a non-empty new-products
partition whose send fails, the seen file is left exactly as it was, the
email that was attempted carried precisely the new partition, and a repeat
cycle over the same fetch output computes the same new partition again. -/
theorem C2_no_commit_on_failed_send (file : FileState) (products : List Product)
    (h : (classifyLoop (load_seen_products file) products ([], ∅)).1 ≠ []) :
    (ProductChecker.run file products false).store = file ∧
    (ProductChecker.run file products false).emailedNew
      = some (classifyLoop (load_seen_products file) products ([], ∅)).1 ∧
    (classifyLoop (load_seen_products
        (ProductChecker.run file products false).store) products ([], ∅)).1
      = (classifyLoop (load_seen_products file) products ([], ∅)).1 := by
  have hp : ¬products.isEmpty = true := by
    intro he
    rw [List.isEmpty_iff] at he
    subst he
    exact h rfl
  have hr : ProductChecker.run file products false
      = { store := file,
          emailedNew := some (classifyLoop (load_seen_products file) products ([], ∅)).1,
          lockWritten := false } := by
    rw [run_eq_def]
    simp [hp, List.isEmpty_iff, h]
  rw [hr]
  exact ⟨rfl, rfl, rfl⟩

/-- Witness for C2: a fresh store, one fetched product, send fails. -/
theorem C2_no_commit_on_failed_send_witness :
    (classifyLoop (load_seen_products (.valid ∅)) [sampleTee] ([], ∅)).1 ≠ [] ∧
    ((ProductChecker.run (.valid ∅) [sampleTee] false).store = .valid ∅ ∧
     (ProductChecker.run (.valid ∅) [sampleTee] false).emailedNew
       = some (classifyLoop (load_seen_products (.valid ∅)) [sampleTee] ([], ∅)).1 ∧
     (classifyLoop (load_seen_products
         (ProductChecker.run (.valid ∅) [sampleTee] false).store) [sampleTee] ([], ∅)).1
       = (classifyLoop (load_seen_products (.valid ∅)) [sampleTee] ([], ∅)).1) :=
  ⟨by decide, C2_no_commit_on_failed_send (.valid ∅) [sampleTee] (by decide)⟩

/-- Claim C6: once a key is in the persisted seen set it stays there across
any sequence of cycles (the store only ever gains keys), and a listing
carrying a committed key is never again classified as new by the change
detection of any later cycle. -/
theorem C6_at_most_once (file : FileState) (cycles : List (List Product × Bool))
    (products : List Product) (p : Product) (k : String)
    (hk : k ∈ load_seen_products file) (hp : p ∈ products)
    (hkey : cleanUrl p.url = k) :
    k ∈ load_seen_products (runCycles file cycles) ∧
    p ∉ (classifyLoop (load_seen_products (runCycles file cycles))
          products ([], ∅)).1 ∧
    ∀ (f : FileState) (ps : List Product) (ok : Bool),
      load_seen_products f ⊆ load_seen_products (ProductChecker.run f ps ok).store := by
  have h1 : k ∈ load_seen_products (runCycles file cycles) :=
    runCycles_monotone cycles file hk
  refine ⟨h1, ?_, fun f ps ok => run_store_monotone f ps ok⟩
  rw [classifyLoop_fst]
  intro hmem
  rw [List.nil_append, List.mem_filter] at hmem
  have habs : cleanUrl p.url ∉ load_seen_products (runCycles file cycles) := by
    simpa using hmem.2
  exact habs (by rw [hkey]; exact h1)

/-- Witness for C6: key committed, then one further successful cycle re-fetches
a listing with that key (its raw URL differing only by a query string). -/
theorem C6_at_most_once_witness :
    "https://s/a" ∈ load_seen_products (.valid {"https://s/a"}) ∧
    sampleDup ∈ [sampleDup] ∧
    cleanUrl sampleDup.url = "https://s/a" ∧
    ("https://s/a" ∈ load_seen_products
        (runCycles (.valid {"https://s/a"}) [([sampleDup], true)]) ∧
     sampleDup ∉ (classifyLoop (load_seen_products
          (runCycles (.valid {"https://s/a"}) [([sampleDup], true)]))
          [sampleDup] ([], ∅)).1 ∧
     ∀ (f : FileState) (ps : List Product) (ok : Bool),
       load_seen_products f ⊆ load_seen_products (ProductChecker.run f ps ok).store) :=
  ⟨by decide, by decide, by decide,
   C6_at_most_once (.valid {"https://s/a"}) [([sampleDup], true)] [sampleDup]
     sampleDup "https://s/a" (by decide) (by decide) (by decide)⟩

/-- Claim C10: occurrences of an unseen key are not deduplicated within a
cycle: every occurrence of such a listing stays in the new partition (its
multiplicity is preserved), each occurrence contributes its own four-line
block to the notification body, while `all_current_urls` still collapses
duplicate keys to one set element. -/
theorem C10_duplicates_kept (seen : Finset String) (products : List Product)
    (p : Product) (intro search_url : String)
    (h : cleanUrl p.url ∉ seen) :
    (classifyLoop seen products ([], ∅)).1.count p = products.count p ∧
    (email_body_lines intro search_url (classifyLoop seen products ([], ∅)).1).length
      = 6 + 4 * (classifyLoop seen products ([], ∅)).1.length ∧
    (classifyLoop seen products ([], ∅)).2
      = (products.map fun q => cleanUrl q.url).toFinset := by
  refine ⟨?_, email_body_lines_length _ _ _, by rw [classifyLoop_snd]; simp⟩
  rw [classifyLoop_fst]
  rw [List.nil_append]
  exact List.count_filter (by simp [h])

/-- Witness for C10: the same listing fetched twice; both occurrences are new
and the current-keys set still has a single element. -/
theorem C10_duplicates_kept_witness :
    cleanUrl sampleDup.url ∉ (∅ : Finset String) ∧
    ((classifyLoop ∅ [sampleDup, sampleDup] ([], ∅)).1.count sampleDup
       = [sampleDup, sampleDup].count sampleDup ∧
     (email_body_lines "intro" "https://s"
        (classifyLoop ∅ [sampleDup, sampleDup] ([], ∅)).1).length
       = 6 + 4 * (classifyLoop ∅ [sampleDup, sampleDup] ([], ∅)).1.length ∧
     (classifyLoop ∅ [sampleDup, sampleDup] ([], ∅)).2
       = ([sampleDup, sampleDup].map fun q => cleanUrl q.url).toFinset) :=
  ⟨by decide,
   C10_duplicates_kept ∅ [sampleDup, sampleDup] sampleDup "intro" "https://s"
     (by decide)⟩

/-- Claim C4: a listing joins the `signed_in_stock` (re-alert) partition of
`TaylorSwiftChecker.run` iff it is signed, available, and `now` minus its last
alert time is at least `SIGNED_COOLDOWN_SECONDS`; a key absent from the
signed-seen mapping has implicit last alert time 0; a key alerted at time `T`
is excluded while `0 ≤ now - T < cooldown` and included once
`now - T ≥ cooldown`. -/
theorem C4_signed_cooldown (seen : Finset String)
    (signed_seen : List (String × Int)) (now : Int) (products : List Product) :
    (∀ p, p ∈ (tsClassifyLoop seen signed_seen now products ([], [], ∅)).2.1 ↔
        (p ∈ products ∧ p.is_signed = true ∧ p.is_available = true ∧
          now - dictGet signed_seen (cleanUrl p.url) ≥ SIGNED_COOLDOWN_SECONDS)) ∧
    (∀ k, signed_seen.lookup k = none → dictGet signed_seen k = 0) ∧
    (∀ p T, p ∈ products → p.is_signed = true → p.is_available = true →
      dictGet signed_seen (cleanUrl p.url) = T →
      ((0 ≤ now - T ∧ now - T < SIGNED_COOLDOWN_SECONDS →
          p ∉ (tsClassifyLoop seen signed_seen now products ([], [], ∅)).2.1) ∧
       (now - T ≥ SIGNED_COOLDOWN_SECONDS →
          p ∈ (tsClassifyLoop seen signed_seen now products ([], [], ∅)).2.1))) := by
  have hmem : ∀ p, p ∈ (tsClassifyLoop seen signed_seen now products ([], [], ∅)).2.1 ↔
      (p ∈ products ∧ p.is_signed = true ∧ p.is_available = true ∧
        now - dictGet signed_seen (cleanUrl p.url) ≥ SIGNED_COOLDOWN_SECONDS) := by
    intro p
    rw [tsClassifyLoop_signed]
    simp [signedDue, List.mem_filter, and_assoc]
  refine ⟨hmem, ?_, ?_⟩
  · intro k hk
    simp [dictGet, hk]
  · intro p T hp hs ha hT
    constructor
    · rintro ⟨-, hlt⟩ hin
      have hdue := (hmem p).mp hin
      rw [hT] at hdue
      exact absurd hdue.2.2.2 (not_le.mpr hlt)
    · intro hge
      exact (hmem p).mpr ⟨hp, hs, ha, by rw [hT]; exact hge⟩

/-- Witness for C4: empty signed-seen mapping (implicit last alert time 0) and
`now` exactly at the cooldown boundary, so the signed listing is due. -/
theorem C4_signed_cooldown_witness :
    sampleSigned ∈ [sampleSigned] ∧
    sampleSigned.is_signed = true ∧
    sampleSigned.is_available = true ∧
    dictGet [] (cleanUrl sampleSigned.url) = 0 ∧
    (7200 : Int) - 0 ≥ SIGNED_COOLDOWN_SECONDS ∧
    sampleSigned ∈ (tsClassifyLoop ∅ [] 7200 [sampleSigned] ([], [], ∅)).2.1 :=
  ⟨by decide, rfl, rfl, rfl, by decide,
   ((C4_signed_cooldown ∅ [] 7200 [sampleSigned]).2.2 sampleSigned 0
     (by decide) rfl rfl rfl).2 (by decide)⟩

/-- Claim C5 counterexample: one signed, available, unseen listing; the signed
alert is attempted and its delivery FAILS (the signed-seen store stays
untouched, so nothing was successfully re-alerted this cycle), the new
partition contains the listing, yet no new-items email is attempted at all —
the listing was excluded although its re-alert delivery failed, contradicting
the claim that only successfully re-alerted keys are removed. -/
theorem C5_counterexample :
    (TaylorSwiftChecker.run (.valid ∅) (.valid []) [sampleSigned] 7200
        false true).signedEmail = some [sampleSigned] ∧
    (TaylorSwiftChecker.run (.valid ∅) (.valid []) [sampleSigned] 7200
        false true).signedStore = .valid [] ∧
    tsNewPartition (.valid ∅) (.valid []) [sampleSigned] 7200 = [sampleSigned] ∧
    (TaylorSwiftChecker.run (.valid ∅) (.valid []) [sampleSigned] 7200
        false true).newEmail = none := by
  refine ⟨?_, ?_, ?_, ?_⟩ <;> decide

/-- Claim C5 amended: the new-items notification of a `TaylorSwiftChecker.run`
cycle is the new partition minus every listing whose key appears in the
`signed_in_stock` partition of the same cycle, regardless of whether the
signed alert's delivery succeeded or failed (the send outcomes influence no
part of the new-items email). -/
theorem C5_new_email_excludes_attempted_signed (seenFile : FileState)
    (signedFile : SignedFileState) (products : List Product) (now : Int)
    (sOk nOk sOk2 nOk2 : Bool) :
    (TaylorSwiftChecker.run seenFile signedFile products now sOk nOk).newEmail
      = (TaylorSwiftChecker.run seenFile signedFile products now sOk2 nOk2).newEmail ∧
    ∀ p, p ∈ (TaylorSwiftChecker.run seenFile signedFile products now
          sOk nOk).newEmail.getD []
      ↔ (p ∈ tsNewPartition seenFile signedFile products now ∧
          cleanUrl p.url ∉ (tsSignedPartition seenFile signedFile products now).map
            fun q => cleanUrl q.url) := by
  constructor
  · rw [ts_run_newEmail, ts_run_newEmail]
  · intro p
    rw [ts_run_newEmail]
    by_cases hp : products.isEmpty
    · rw [List.isEmpty_iff] at hp
      subst hp
      simp [tsNewPartition, tsClassifyLoop]
    · rw [if_neg hp]
      by_cases hA : (tsNewPartition seenFile signedFile products now).isEmpty
      · rw [if_pos hA]
        rw [List.isEmpty_iff] at hA
        simp [hA]
      · rw [if_neg hA]
        by_cases hnns : ((tsNewPartition seenFile signedFile products now).filter
            fun q => decide (cleanUrl q.url ∉
              ((tsSignedPartition seenFile signedFile products now).map
                fun q => cleanUrl q.url).toFinset)).isEmpty
        · rw [if_pos hnns]
          rw [List.isEmpty_iff] at hnns
          constructor
          · intro h
            simp at h
          · rintro ⟨h1, h2⟩
            have hmem : p ∈ (tsNewPartition seenFile signedFile products now).filter
                fun q => decide (cleanUrl q.url ∉
                  ((tsSignedPartition seenFile signedFile products now).map
                    fun q => cleanUrl q.url).toFinset) := by
              rw [List.mem_filter]
              exact ⟨h1, by simpa [List.mem_toFinset] using h2⟩
            rw [hnns] at hmem
            simp at hmem
        · rw [if_neg hnns]
          simp [List.mem_filter, List.mem_toFinset]

/-- Claim C1 (demonstrating the code's divergence): a cycle with one unseen,
unsigned product in which the new-items send FAILS — the email was attempted
(`newEmail` carries the product) and delivery returned failure, yet
`TaylorSwiftChecker.run` still merges the cycle's keys into the seen set and
writes the file, leaving the store changed. -/
theorem C1_seen_committed_despite_failed_send :
    (TaylorSwiftChecker.run (.valid ∅) (.valid []) [sampleTee] 0
        true false).newEmail = some [sampleTee] ∧
    (TaylorSwiftChecker.run (.valid ∅) (.valid []) [sampleTee] 0
        true false).seenStore = .valid {cleanUrl sampleTee.url} ∧
    (TaylorSwiftChecker.run (.valid ∅) (.valid []) [sampleTee] 0
        true false).seenStore ≠ .valid ∅ := by
  refine ⟨?_, ?_, ?_⟩ <;> decide
